import Mathlib

/-!
Verification development for the mpdcast-dab repository.

The Python sources are shallowly embedded: every pure computation becomes a
Lean function, stateful code becomes explicit state passing, asyncio tasks
become labelled steps of a small transition system, and fallible operations
return Option or an explicit outcome type.  Machine integers are Nat with
explicit bounds where Python raises (int.to_bytes raises OverflowError when
the value does not fit the requested width).

Components embedded below:
 - dabserver/dab_server.py         (wav header, get_audio prelude, get_current_image)
 - dabserver/service_controller.py (ring buffer, events, release_waiters)
 - welle_python/radio_controller.py (tuning, subscriptions, deferred reset)
 - welle_python/welle_io.py        (DabDevice lease: aquire_now / release)
 - welle_python/dab_scanner.py     (start_scan lease refusal, scan tuning)
 - mpdcast/mpd_caster.py           (update-task trio discipline)

Asyncio semantics used throughout: tasks on one event loop run atomically
between awaits; asyncio.Event.set wakes every waiter pending at that moment
even when clear follows immediately, and a woken task resumes only when the
scheduler runs it again, so arbitrarily many producer callbacks can execute
between the wake and the resumption.
-/

set_option autoImplicit false

namespace MpdcastDab

/-! Basic byte helpers mirroring the Python primitives used by the sources. -/

abbrev Bytes := List Nat

/-- Bytes of an ASCII string literal, as in Python bytes(s, ascii). -/
def asciiBytes (s : String) : Bytes := s.data.map Char.toNat

/-- Little-endian base-256 digits of v, n bytes wide. -/
def leBytes : Nat → Nat → Bytes
  | 0, _ => []
  | n + 1, v => v % 256 :: leBytes n (v / 256)

/-- Python int.to_bytes n, byteorder little: raises OverflowError (modelled as
none) when the value does not fit into n bytes. -/
def toBytesLE (n v : Nat) : Option Bytes :=
  if v < 256 ^ n then some (leBytes n v) else none

/-- Value of a little-endian byte list. -/
def fromLE (l : Bytes) : Nat := l.foldr (fun b acc => b + 256 * acc) 0

/-- Python truthiness of an optional service id: None is falsy and so is 0. -/
def truthyNat : Option Nat → Bool
  | none => false
  | some n => n != 0

/-- Python str.startswith, on the character sequences. -/
def pyStartswith (s pre : String) : Bool := pre.data.isPrefixOf s.data

/-- Python str.rstrip on the character sequence: drop trailing whitespace. -/
def pyRstrip (s : String) : String :=
  String.mk ((s.data.reverse.dropWhile Char.isWhitespace).reverse)

/-!
DabServer wav header (dabserver/dab_server.py, method _wav_header).

The Python method builds the header from int.to_bytes pieces; each to_bytes
call raises OverflowError when the field value does not fit, so the embedding
returns Option Bytes.
-/

def wav_header (is_float : Bool) (channels bit_rate sample_rate : Nat) : Option Bytes := do
  let chunkSize ← toBytesLE 4 0
  let sub1Size ← toBytesLE 4 16
  let fmtCode ← toBytesLE 2 (if is_float then 3 else 1)
  let chans ← toBytesLE 2 channels
  let rate ← toBytesLE 4 sample_rate
  let byteRate ← toBytesLE 4 (sample_rate * channels * (bit_rate / 8))
  let blockAlign ← toBytesLE 2 (channels * (bit_rate / 8))
  let bits ← toBytesLE 2 bit_rate
  let sub2Size ← toBytesLE 4 0
  pure (asciiBytes "RIFF" ++ chunkSize ++ asciiBytes "WAVE"
      ++ asciiBytes "fmt " ++ sub1Size ++ fmtCode ++ chans
      ++ rate ++ byteRate ++ blockAlign ++ bits
      ++ asciiBytes "data" ++ sub2Size)

/-!
DabServer get_audio prelude (dabserver/dab_server.py, method get_audio).

Only the response-selection prefix of the handler is embedded: the shutdown
check, the cover-name check, the single half-second sleep when the channel
cannot be accepted, and the 503 on failed subscription.  The environment
carries the answers of the collaborating radio controller.
-/

inductive HttpAudioResult
  | serviceUnavailable
  | notFound
  | streaming
deriving DecidableEq, Repr

structure AudioRequestEnv where
  shutdown_in_progress : Bool
  can_subscribe : Bool
  subscribe_succeeds : Bool

/-- Embeds the prefix of DabServer.get_audio up to the subscription result.
The second component counts the half-second sleeps performed. -/
def get_audio_prelude (env : AudioRequestEnv) (service : String) : HttpAudioResult × Nat :=
  if env.shutdown_in_progress then (.serviceUnavailable, 0)
  else if pyStartswith service "cover." then (.notFound, 0)
  else
    let sleeps := if env.can_subscribe then 0 else 1
    if env.subscribe_succeeds then (.streaming, sleeps)
    else (.serviceUnavailable, sleeps)

/-!
ServiceController (dabserver/service_controller.py).

The ServiceData record declares the picture attribute with a bare type
annotation and never assigns it, so reading it before any MOT callback raises
AttributeError; picture is therefore an Option whose none means the attribute
does not exist yet.
-/

structure Picture where
  mime : String
  dataBytes : Bytes
  motName : String
deriving DecidableEq, Repr

structure ServiceData where
  picture : Option Picture
  label : String
  sample_rate : Nat
  mode : String
deriving DecidableEq, Repr

/-- Fresh ServiceData as built by the ServiceData constructor: label, rate and
mode initialised, picture attribute not created. -/
def ServiceData.init : ServiceData :=
  { picture := none, label := "", sample_rate := 0, mode := "" }

inductive ImageResponse
  | ok (b : Bytes) (mime : String)
  | notFound
  | attributeError
deriving DecidableEq, Repr

/-- Embeds DabServer.get_current_image.  The argument is the result of the
service-controller lookup (none when the service is not subscribed).  An
attributeError outcome is an unhandled Python AttributeError, which aiohttp
turns into an HTTP 500 response. -/
def get_current_image (controller : Option ServiceData) : ImageResponse :=
  match controller with
  | none => .notFound
  | some d =>
    match d.picture with
    | none => .attributeError
    | some p => if 0 < p.dataBytes.length then .ok p.dataBytes p.mime else .notFound

abbrev Frame := Bytes

def BUFFER_SIZE : Nat := 10

structure AudioBuffer where
  next_frame : Nat
  slots : List Frame
deriving DecidableEq, Repr

/-- Full state of one ServiceController: most-recent data, the 10-slot ring,
the three asyncio.Event flags and the shutting-down flag. -/
structure SCState where
  subscribers : Int
  svcData : ServiceData
  buffer : AudioBuffer
  audioEvent : Bool
  pictureEvent : Bool
  labelEvent : Bool
  delete_in_progress : Bool
deriving DecidableEq, Repr

def SCState.init : SCState :=
  { subscribers := 0
    svcData := ServiceData.init
    buffer := { next_frame := 0, slots := List.replicate BUFFER_SIZE [] }
    audioEvent := false
    pictureEvent := false
    labelEvent := false
    delete_in_progress := false }

/-- Driver callback on_new_audio: store the frame at the write cursor, advance
the cursor modulo 10, then set and immediately clear the audio event unless
teardown began (the transient set wakes pending waiters; the flag ends
cleared). -/
def on_new_audio (s : SCState) (audio : Frame) (sr : Nat) (mode : String) : SCState :=
  { s with
    svcData := { s.svcData with sample_rate := sr, mode := mode }
    buffer := { next_frame := (s.buffer.next_frame + 1) % BUFFER_SIZE
                slots := s.buffer.slots.set s.buffer.next_frame audio }
    audioEvent := if s.delete_in_progress then s.audioEvent else false }

/-- Driver callback on_new_dynamic_label. -/
def on_new_dynamic_label (s : SCState) (l : String) : SCState :=
  { s with
    svcData := { s.svcData with label := l }
    labelEvent := if s.delete_in_progress then s.labelEvent else false }

/-- Driver callback on_mot. -/
def on_mot (s : SCState) (p : Picture) : SCState :=
  { s with
    svcData := { s.svcData with picture := some p }
    pictureEvent := if s.delete_in_progress then s.pictureEvent else false }

/-- release_waiters: set the shutting-down flag and set all three events; the
events are never cleared afterwards because the producer callbacks skip the
set-and-clear once the flag is up. -/
def release_waiters (s : SCState) : SCState :=
  { s with delete_in_progress := true, audioEvent := true, pictureEvent := true, labelEvent := true }

inductive SCStep
  | audio (frame : Frame) (sr : Nat) (mode : String)
  | dynamicLabel (l : String)
  | mot (p : Picture)
  | releaseWaiters
deriving DecidableEq, Repr

def SCState.step (s : SCState) : SCStep → SCState
  | .audio f sr m => on_new_audio s f sr m
  | .dynamicLabel l => on_new_dynamic_label s l
  | .mot p => on_mot s p
  | .releaseWaiters => release_waiters s

def SCState.run (s : SCState) (ops : List SCStep) : SCState := ops.foldl SCState.step s

/-- Whether a step, taken in a given state, performs an Event.set on the audio
event and hence wakes the audio waiters pending at that moment. -/
def wakesAudio (s : SCState) : SCStep → Bool
  | .audio _ _ _ => !s.delete_in_progress
  | .releaseWaiters => true
  | _ => false

/-- True when some step of the run performs an audio wake. -/
def anyAudioWake : SCState → List SCStep → Bool
  | _, [] => false
  | s, st :: rest => wakesAudio s st || anyAudioWake (s.step st) rest

/-- Outcome of calling one of the awaitable notification routines: the call
can suspend, raise UnsubscribedError, or return a value. -/
inductive WaitOutcome (α : Type)
  | blocked
  | unsubscribedError
  | ret (a : α)
deriving DecidableEq, Repr

/-- Python list arithmetic of new_audio: slots between start_frame and
next_frame when start_frame is below the cursor, otherwise the tail from
start_frame plus the head up to the cursor. -/
def python_slice_audio (buf : AudioBuffer) (start : Nat) : List Frame :=
  if start < buf.next_frame then (buf.slots.take buf.next_frame).drop start
  else buf.slots.drop start ++ buf.slots.take buf.next_frame

/-- Concatenation of a list of byte blobs, as bytes-join in Python. -/
def joinBytes (l : List Frame) : Frame := l.foldr (fun a b => a ++ b) []

/-- The value new_audio returns once it reaches the critical section. -/
def new_audio_body (s : SCState) (start : Nat) : Nat × Frame :=
  (s.buffer.next_frame, joinBytes (python_slice_audio s.buffer start))

/-- The immediate behaviour of a new_audio call: when the start cursor equals
the write cursor the coroutine awaits the audio event (returning at once only
when the event flag is set), checks the shutting-down flag, and otherwise goes
straight to the critical section. -/
def new_audio_call (s : SCState) (start : Nat) : WaitOutcome (Nat × Frame) :=
  if start = s.buffer.next_frame then
    if s.audioEvent then
      if s.delete_in_progress then .unsubscribedError
      else .ret (new_audio_body s start)
    else .blocked
  else .ret (new_audio_body s start)

/-- Resumption of a new_audio call that blocked earlier and was woken: the
shutting-down check runs first, then the critical section against the state
current at resumption time. -/
def new_audio_resume (s : SCState) (start : Nat) : WaitOutcome (Nat × Frame) :=
  if s.delete_in_progress then .unsubscribedError else .ret (new_audio_body s start)

def new_picture_call (s : SCState) : WaitOutcome (Option Picture) :=
  if s.pictureEvent then
    if s.delete_in_progress then .unsubscribedError else .ret s.svcData.picture
  else .blocked

def new_picture_resume (s : SCState) : WaitOutcome (Option Picture) :=
  if s.delete_in_progress then .unsubscribedError else .ret s.svcData.picture

def new_label_call (s : SCState) : WaitOutcome String :=
  if s.labelEvent then
    if s.delete_in_progress then .unsubscribedError else .ret s.svcData.label
  else .blocked

def new_label_resume (s : SCState) : WaitOutcome String :=
  if s.delete_in_progress then .unsubscribedError else .ret s.svcData.label

/-- Slot indices of the half-open interval from start to next taken modulo the
capacity; the length is the modular distance between the cursors. -/
def modIndices (start next cap : Nat) : List Nat :=
  (List.range ((next + cap - start) % cap)).map (fun i => (start + i) % cap)

/-- Concatenation of the frames stored at the slot indices in the interval
from the start cursor to the write cursor, taken modulo 10. -/
def modConcat (buf : AudioBuffer) (start : Nat) : Frame :=
  joinBytes ((modIndices start buf.next_frame BUFFER_SIZE).map (fun i => buf.slots.getD i []))

/-- Basic well-formedness of the ring: 10 slots and a cursor below 10. -/
def SCWF (s : SCState) : Prop :=
  s.buffer.slots.length = BUFFER_SIZE ∧ s.buffer.next_frame < BUFFER_SIZE

/-!
DabDevice lease (welle_python/welle_io.py) and observable driver calls.

aquire_now succeeds exactly when the callback forwarder still points at the
stub controller; release points it back.  Every set_channel, aquire_now and
release call is recorded as an event; a set_channel event also records who the
forwarder pointed at when the call happened.
-/

inductive DevOwner
  | stub
  | radio
  | scanner
deriving DecidableEq, Repr

inductive Caller
  | radioC
  | scannerC
deriving DecidableEq, Repr

inductive DevEvent
  | setChannelCall (caller : Caller) (ownerAtCall : DevOwner) (arg : Option String)
  | acquireCall (who : DevOwner) (ok : Bool)
  | releaseCall (prevOwner : DevOwner)
deriving DecidableEq, Repr

structure DabDevice where
  forward_object : DevOwner
  channel : Option String
  subs : List Nat
deriving DecidableEq, Repr

def DabDevice.init : DabDevice := { forward_object := .stub, channel := none, subs := [] }

/-- DabDevice.aquire_now: succeed only when nobody holds the forwarder. -/
def aquire_now (d : DabDevice) (who : DevOwner) : DabDevice × Bool × DevEvent :=
  if d.forward_object = .stub then ({ d with forward_object := who }, true, .acquireCall who true)
  else (d, false, .acquireCall who false)

/-- DabDevice.release: point the forwarder back at the stub. -/
def dev_release (d : DabDevice) : DabDevice × Bool × DevEvent :=
  if d.forward_object = .stub then (d, false, .releaseCall .stub)
  else ({ d with forward_object := .stub }, true, .releaseCall d.forward_object)

/-- A set_channel call on the device; arg none encodes the empty string
(untune).  The event records the forwarder owner at call time. -/
def dev_set_channel (d : DabDevice) (who : Caller) (arg : Option String) (ok : Bool) :
    DabDevice × DevEvent :=
  (if ok then { d with channel := arg } else d,
   .setChannelCall who d.forward_object arg)

/-!
RadioController (welle_python/radio_controller.py).

The cancel_delayed_channel_reset event starts set; resetPending true means the
event is cleared (a delayed reset is waiting for its five-second timeout).
resetTaskCreated means a reset task was created but its body has not run yet;
resetWaiting (with the recorded target channel) means the body reached the
timed wait.
-/

structure Handler where
  hid : Nat
  subscribers : Int
deriving DecidableEq, Repr

structure RCState where
  programs : List (Nat × Option String)
  handlers : List (Nat × Handler)
  channelName : Option String
  resetPending : Bool
  resetTaskCreated : Bool
  resetWaiting : Option (Option String)
  nextHid : Nat
deriving DecidableEq, Repr

def RCState.init : RCState :=
  { programs := [], handlers := [], channelName := none,
    resetPending := false, resetTaskCreated := false, resetWaiting := none, nextHid := 0 }

/-- Name filling of get_program_id: a missing or empty display name is fetched
from the device and stripped of trailing whitespace. -/
def fillName (names : Nat → String) (sid : Nat) : Option String → String
  | none => pyRstrip (names sid)
  | some s => if s = "" then pyRstrip (names sid) else s

/-- RadioController get_program_id: walk the programs map in order, lazily
filling display names, and return the first service id whose name matches.
The traversed prefix keeps its filled names. -/
def get_program_id (names : Nat → String) :
    List (Nat × Option String) → String → List (Nat × Option String) × Option Nat
  | [], _ => ([], none)
  | (sid, pname) :: rest, lookup =>
    let filled := fillName names sid pname
    if filled = lookup then ((sid, some filled) :: rest, some sid)
    else
      let r := get_program_id names rest lookup
      ((sid, some filled) :: r.1, r.2)

/-- The polling part of wait_for_channel: up to k half-second polls, stopping
at the first truthy id.  The last component counts the polls performed.  The
environment is held fixed between polls. -/
def poll_loop (names : Nat → String) (lookup : String) :
    List (Nat × Option String) → Nat → List (Nat × Option String) × Option Nat × Nat
  | progs, 0 => (progs, none, 0)
  | progs, k + 1 =>
    let r := get_program_id names progs lookup
    if truthyNat r.2 then (r.1, r.2, 1)
    else
      let q := poll_loop names lookup r.1 k
      (q.1, q.2.1, q.2.2 + 1)

/-- RadioController wait_for_channel: immediate check, then twenty polls over
ten seconds; a falsy id (absent, or service id 0) never terminates the loop
early. -/
def wait_for_channel (names : Nat → String) (progs : List (Nat × Option String))
    (lookup : String) : List (Nat × Option String) × Option Nat × Nat :=
  let r := get_program_id names progs lookup
  if truthyNat r.2 then (r.1, r.2, 0)
  else poll_loop names lookup r.1 20

def lookupHandler : List (Nat × Handler) → Nat → Option Handler
  | [], _ => none
  | (k, h) :: rest, pid => if k = pid then some h else lookupHandler rest pid

def updateHandler (l : List (Nat × Handler)) (pid : Nat) (h : Handler) : List (Nat × Handler) :=
  l.map (fun e => if e.1 = pid then (pid, h) else e)

def removeHandler (l : List (Nat × Handler)) (pid : Nat) : List (Nat × Handler) :=
  l.filter (fun e => e.1 != pid)

/-- start_delayed_reset: create the reset task; its body runs later. -/
def start_delayed_reset (st : RCState) : RCState := { st with resetTaskCreated := true }

/-- reset_channel: untune the device, drop the channel name, clear the
services map and release the lease.  The cancel event is NOT set here. -/
def reset_channel (st : RCState) (dev : DabDevice) : RCState × DabDevice × List DevEvent :=
  let (dev1, evS) := dev_set_channel dev .radioC none true
  let (dev2, _, evR) := dev_release dev1
  ({ st with channelName := none, programs := [] }, dev2, [evS, evR])

/-- RadioController tune_channel.  When the cancel event is cleared a delayed
reset is pending: an active mismatching channel is reset immediately, then the
event is set, which also wakes the waiting reset task so that it exits without
resetting. -/
def tune_channel (st : RCState) (dev : DabDevice) (channel : String) (setChannelOk : Bool) :
    Bool × RCState × DabDevice × List DevEvent :=
  let (st1, dev1, evs1) :=
    if st.resetPending then
      if st.channelName ≠ some channel then
        let (sta, deva, evsa) := reset_channel st dev
        ({ sta with resetPending := false, resetWaiting := none }, deva, evsa)
      else
        ({ st with resetPending := false, resetWaiting := none }, dev, [])
    else (st, dev, [])
  match st1.channelName with
  | some ch =>
    if ch = channel then (true, st1, dev1, evs1) else (false, st1, dev1, evs1)
  | none =>
    let (dev2, ok, evA) := aquire_now dev1 .radio
    if ok then
      let (dev3, evS) := dev_set_channel dev2 .radioC (some channel) setChannelOk
      if setChannelOk then
        (true, { st1 with channelName := some channel }, dev3, evs1 ++ [evA, evS])
      else
        let (dev4, _, evR) := dev_release dev3
        (false, st1, dev4, evs1 ++ [evA, evS, evR])
    else (false, st1, dev2, evs1 ++ [evA])

structure SubscribeEnv where
  names : Nat → String
  subscribeOk : Bool

/-- RadioController subscribe_for_service_in_current_channel: resolve the
program id (waiting for discovery), reuse an existing handler or create and
register a fresh one, then ask the device to deliver frames; on a failed
device subscription the fresh handler stays registered with subscriber count
zero and a delayed reset is scheduled. -/
def subscribe_for_service_in_current_channel (st : RCState) (dev : DabDevice)
    (program_name : String) (env : SubscribeEnv) : Option Handler × RCState × DabDevice :=
  let w := wait_for_channel env.names st.programs program_name
  let st1 := { st with programs := w.1 }
  match w.2.1, truthyNat w.2.1 with
  | some pid, true =>
    match lookupHandler st1.handlers pid with
    | some h =>
      let h2 := { h with subscribers := h.subscribers + 1 }
      (some h2, { st1 with handlers := updateHandler st1.handlers pid h2 }, dev)
    | none =>
      let h := { hid := st1.nextHid, subscribers := (0 : Int) }
      let st2 := { st1 with handlers := st1.handlers ++ [(pid, h)], nextHid := st1.nextHid + 1 }
      if env.subscribeOk then
        let h2 := { h with subscribers := (1 : Int) }
        (some h2, { st2 with handlers := updateHandler st2.handlers pid h2 },
         { dev with subs := dev.subs ++ [pid] })
      else
        (none, start_delayed_reset st2, dev)
  | _, _ => (none, start_delayed_reset st1, dev)

structure CallEnv where
  names : Nat → String
  setChannelOk : Bool
  subscribeOk : Bool

/-- RadioController subscribe_program: tune, then subscribe within the
channel; both under the subscription lock. -/
def subscribe_program (st : RCState) (dev : DabDevice) (channel program_name : String)
    (env : CallEnv) : Option Handler × RCState × DabDevice × List DevEvent :=
  let t := tune_channel st dev channel env.setChannelOk
  if t.1 then
    let r := subscribe_for_service_in_current_channel t.2.1 t.2.2.1 program_name
      { names := env.names, subscribeOk := env.subscribeOk }
    (r.1, r.2.1, r.2.2, t.2.2.2)
  else (none, t.2.1, t.2.2.1, t.2.2.2)

/-- RadioController unsubscribe (by program id): decrement; at zero,
unsubscribe the device, tear the handler down, deregister it and schedule the
delayed channel reset.  A missing map entry raises KeyError in Python and
leaves the state unchanged. -/
def unsubscribe_pid (st : RCState) (dev : DabDevice) (pid : Nat) : RCState × DabDevice :=
  match lookupHandler st.handlers pid with
  | none => (st, dev)
  | some h =>
    let h2 := { h with subscribers := h.subscribers - 1 }
    if h2.subscribers = 0 then
      (start_delayed_reset { st with handlers := removeHandler st.handlers pid },
       { dev with subs := dev.subs.filter (fun x => x != pid) })
    else
      ({ st with handlers := updateHandler st.handlers pid h2 }, dev)

/-- RadioController unsubscribe_program: resolve the name and unsubscribe when
the id is truthy. -/
def unsubscribe_program (st : RCState) (dev : DabDevice) (names : Nat → String)
    (program_name : String) : RCState × DabDevice :=
  let r := get_program_id names st.programs program_name
  let st1 := { st with programs := r.1 }
  match r.2, truthyNat r.2 with
  | some pid, true => unsubscribe_pid st1 dev pid
  | _, _ => (st1, dev)

/-- RadioController is_playing: false on a falsy id, otherwise map
membership.  Returns the answer and the name-filled state. -/
def is_playing (st : RCState) (names : Nat → String) (program_name : String) : Bool × RCState :=
  let r := get_program_id names st.programs program_name
  let st1 := { st with programs := r.1 }
  match r.2, truthyNat r.2 with
  | some pid, true => ((lookupHandler st1.handlers pid).isSome, st1)
  | _, _ => (false, st1)

/-- on_service_detected: record an unseen service id with no name yet. -/
def on_service_detected (progs : List (Nat × Option String)) (sid : Nat) :
    List (Nat × Option String) :=
  if progs.any (fun e => e.1 == sid) then progs else progs ++ [(sid, none)]

/-- Scheduler step: the created reset task body starts.  With handlers
present it exits at once; otherwise it records the target channel, clears the
cancel event and enters the five-second wait. -/
def reset_task_run (st : RCState) : RCState :=
  if st.resetTaskCreated then
    if st.handlers.isEmpty then
      { st with resetTaskCreated := false, resetWaiting := some st.channelName,
                resetPending := true }
    else { st with resetTaskCreated := false }
  else st

/-- Scheduler step: the five-second timeout of a waiting reset task fires.
The channel is reset when it still matches the recorded target.  Faithful to
the source, the cancel event REMAINS cleared after the timeout path. -/
def reset_timer_fire (st : RCState) (dev : DabDevice) : RCState × DabDevice × List DevEvent :=
  match st.resetWaiting with
  | none => (st, dev, [])
  | some target =>
    if st.resetPending then
      let st1 := { st with resetWaiting := none }
      match st.channelName, target with
      | some ch, some t =>
        if ch = t then
          let r := reset_channel st1 dev
          (r.1, r.2.1, r.2.2)
        else (st1, dev, [])
      | _, _ => (st1, dev, [])
    else ({ st with resetWaiting := none }, dev, [])

/-!
DabScanner (welle_python/dab_scanner.py): start_scan refuses when a scan runs
or the lease is taken; scanning tunes channels while holding the lease and
releases it at the end.
-/

structure ScannerState where
  scan_task : Bool
  status_text : String
deriving DecidableEq, Repr

def ScannerState.init : ScannerState := { scan_task := false, status_text := "" }

/-- DabScanner.start_scan: refuse on a running scan, refuse when aquire_now
fails, otherwise start the scan task. -/
def start_scan (sc : ScannerState) (dev : DabDevice) : ScannerState × DabDevice × List DevEvent :=
  if sc.scan_task then
    ({ sc with status_text := "Scan in progress. No new scan possible." }, dev, [])
  else
    let (dev1, ok, evA) := aquire_now dev .scanner
    if ok then
      ({ sc with scan_task := true, status_text := "Scan started succesfully" }, dev1, [evA])
    else
      ({ sc with status_text := "DAB device is locked. No scan possible." }, dev1, [evA])

/-- One channel visit of the running scan task: tune the channel. -/
def scan_tune (sc : ScannerState) (dev : DabDevice) (ch : String) : DabDevice × List DevEvent :=
  if sc.scan_task then
    let (dev1, ev) := dev_set_channel dev .scannerC (some ch) true
    (dev1, [ev])
  else (dev, [])

/-- End of the scan: release the device and clear the task reference. -/
def scan_finish (sc : ScannerState) (dev : DabDevice) :
    ScannerState × DabDevice × List DevEvent :=
  if sc.scan_task then
    let (dev1, _, evR) := dev_release dev
    ({ sc with scan_task := false }, dev1, [evR])
  else (sc, dev, [])

/-! Composed system of radio controller, scanner and the shared device. -/

structure Sys where
  rc : RCState
  dev : DabDevice
  scanner : ScannerState
deriving DecidableEq, Repr

def Sys.init : Sys := { rc := RCState.init, dev := DabDevice.init, scanner := ScannerState.init }

inductive SysStep
  | subscribe (channel program_name : String) (env : CallEnv)
  | unsubscribe (names : Nat → String) (program_name : String)
  | serviceDetected (sid : Nat)
  | resetTaskRun
  | resetTimerFire
  | startScan
  | scanTune (ch : String)
  | scanFinish

structure StepOut where
  result : Option Handler
  events : List DevEvent
deriving DecidableEq, Repr

def StepOut.none_ : StepOut := { result := none, events := [] }

def Sys.step (s : Sys) : SysStep → Sys × StepOut
  | .subscribe ch name env =>
    let r := subscribe_program s.rc s.dev ch name env
    ({ s with rc := r.2.1, dev := r.2.2.1 }, { result := r.1, events := r.2.2.2 })
  | .unsubscribe names name =>
    let r := unsubscribe_program s.rc s.dev names name
    ({ s with rc := r.1, dev := r.2 }, StepOut.none_)
  | .serviceDetected sid =>
    ({ s with rc := { s.rc with programs := on_service_detected s.rc.programs sid } },
     StepOut.none_)
  | .resetTaskRun =>
    ({ s with rc := reset_task_run s.rc }, StepOut.none_)
  | .resetTimerFire =>
    let r := reset_timer_fire s.rc s.dev
    ({ s with rc := r.1, dev := r.2.1 }, { result := none, events := r.2.2 })
  | .startScan =>
    let r := start_scan s.scanner s.dev
    ({ s with scanner := r.1, dev := r.2.1 }, { result := none, events := r.2.2 })
  | .scanTune ch =>
    let r := scan_tune s.scanner s.dev ch
    ({ s with dev := r.1 }, { result := none, events := r.2 })
  | .scanFinish =>
    let r := scan_finish s.scanner s.dev
    ({ s with scanner := r.1, dev := r.2.1 }, { result := none, events := r.2.2 })

def Sys.run (s : Sys) (steps : List SysStep) : Sys :=
  steps.foldl (fun x st => (x.step st).1) s

def Sys.runOut (s : Sys) : List SysStep → Sys × List StepOut
  | [] => (s, [])
  | st :: rest =>
    let r := s.step st
    let q := r.1.runOut rest
    (q.1, r.2 :: q.2)

/-- A set_channel call made by one component while the other one holds the
lease. -/
def eventViolatesExclusion : DevEvent → Bool
  | .setChannelCall .radioC .scanner _ => true
  | .setChannelCall .scannerC .radio _ => true
  | _ => false

def anyViolation (outs : List StepOut) : Bool :=
  outs.any (fun o => o.events.any eventViolatesExclusion)

/-- The invariant claimed for the radio controller: open driver subscriptions
are exactly the registered handler keys (hence equal in number), the keys are
distinct, and every registered handler has at least one subscriber. -/
def RCInv (s : Sys) : Prop :=
  s.dev.subs = s.rc.handlers.map Prod.fst
  ∧ (s.rc.handlers.map Prod.fst).Nodup
  ∧ ∀ e ∈ s.rc.handlers, 1 ≤ e.2.subscribers

/-- Steps whose driver subscription calls succeed (other driver failures,
like a failed set_channel, remain allowed). -/
def driverSubsOk : SysStep → Prop
  | .subscribe _ _ env => env.subscribeOk = true
  | _ => True

/-!
MpdCaster update-task discipline (mpdcast/mpd_caster.py).

Tasks are identified by the numbers a counter hands out; cancelling a task
appends its identity to the cancelled list.  The environment answers of the
metadata resolvers select the branch of handle_mpd_new_song.
-/

structure UpdaterState where
  tvh_show : Option Nat
  dab_label : Option Nat
  dab_image : Option Nat
deriving DecidableEq, Repr

structure CasterState where
  updater : UpdaterState
  current_station : Option Nat
  nextTask : Nat
  cancelled : List Nat
deriving DecidableEq, Repr

/-- MpdCaster stop_update_tasks: cancel and drop each present handle of the
trio, then drop the station reference. -/
def stop_update_tasks (s : CasterState) : CasterState :=
  let c1 := s.cancelled ++ s.updater.tvh_show.toList
  let c2 := c1 ++ s.updater.dab_label.toList
  let c3 := c2 ++ s.updater.dab_image.toList
  { s with updater := { tvh_show := none, dab_label := none, dab_image := none },
           current_station := none, cancelled := c3 }

structure SongEnv where
  fileIsHttp : Bool
  tvhInitOk : Bool
  remaining_show_time : Option Nat
  dabInitOk : Bool

/-- The branch body of handle_mpd_new_song after the optional task stop: an
active DAB station only refreshes metadata; otherwise a successful EPG
resolver stores a fresh delayed re-dispatch task when the show has remaining
time; otherwise a successful DAB resolver stores the station and the two
watcher tasks; a local file only fills metadata. -/
def handle_new_song_body (s : CasterState) (env : SongEnv) : CasterState :=
  if env.fileIsHttp then
    if s.current_station.isSome then s
    else if env.tvhInitOk then
      if truthyNat env.remaining_show_time then
        { s with updater := { s.updater with tvh_show := some s.nextTask },
                 nextTask := s.nextTask + 1 }
      else s
    else if env.dabInitOk then
      let u := { s.updater with dab_label := some (s.nextTask + 1), dab_image := some (s.nextTask + 2) }
      { s with current_station := some s.nextTask, updater := u, nextTask := s.nextTask + 3 }
    else s
  else s

/-- MpdCaster handle_mpd_new_song: a non-dynamic dispatch first stops the
update tasks, a dynamic one does not; then the common body runs. -/
def handle_mpd_new_song (s : CasterState) (env : SongEnv) (dynamic_update : Bool) : CasterState :=
  handle_new_song_body (if dynamic_update then s else stop_update_tasks s) env

/-- All device events of a list of step outputs, in order. -/
def allEvents (outs : List StepOut) : List DevEvent :=
  outs.foldr (fun o acc => o.events ++ acc) []

/-- Subscribe, unsubscribe, let the reset task start waiting, then subscribe
the same channel and service again before the five-second timer fires. -/
def c4Trace (ch sv : String) (sid : Nat) (names : Nat → String) : List SysStep :=
  [.serviceDetected sid,
   .subscribe ch sv ⟨names, true, true⟩,
   .unsubscribe names sv,
   .resetTaskRun,
   .subscribe ch sv ⟨names, true, true⟩]

/-- Subscribe and unsubscribe, let the delayed reset time out (which leaves
the cancel event cleared), start a scan that takes the lease and tunes, then
issue a new subscribe for another channel. -/
def c5Trace : List SysStep :=
  [.serviceDetected 1,
   .subscribe "5C" "Rock" ⟨fun _ => "Rock", true, true⟩,
   .unsubscribe (fun _ => "Rock") "Rock",
   .resetTaskRun,
   .resetTimerFire,
   .startScan,
   .scanTune "6A",
   .subscribe "7B" "Pop" ⟨fun _ => "Pop", true, true⟩]

/-- A subscribe whose driver subscription call fails. -/
def c3BadTrace : List SysStep :=
  [.serviceDetected 1, .subscribe "5C" "Rock" ⟨fun _ => "Rock", true, false⟩]

/-- A well-behaved sequence: discovery, two subscribers, one unsubscribe. -/
def c3GoodTrace : List SysStep :=
  [.serviceDetected 1,
   .subscribe "5C" "Rock" ⟨fun _ => "Rock", true, true⟩,
   .subscribe "5C" "Rock" ⟨fun _ => "Rock", true, true⟩,
   .unsubscribe (fun _ => "Rock") "Rock"]

/-- A burst of ten driver audio frames queued before a blocked reader gets to
run again (frame i carries the single byte i). -/
def burstTen : List SCStep :=
  [.audio [0] 48000 "dab", .audio [1] 48000 "dab", .audio [2] 48000 "dab",
   .audio [3] 48000 "dab", .audio [4] 48000 "dab", .audio [5] 48000 "dab",
   .audio [6] 48000 "dab", .audio [7] 48000 "dab", .audio [8] 48000 "dab",
   .audio [9] 48000 "dab"]

/-! From here on: theorems. -/

theorem asciiBytes_length (s : String) : (asciiBytes s).length = s.length := by
  rw [asciiBytes, List.length_map]
  rfl

theorem leBytes_length (n v : Nat) : (leBytes n v).length = n := by
  induction n generalizing v with
  | zero => rfl
  | succ k ih => simp [leBytes, ih]

theorem fromLE_leBytes (n v : Nat) (h : v < 256 ^ n) : fromLE (leBytes n v) = v := by
  induction n generalizing v with
  | zero =>
    rw [pow_zero] at h
    have hv : v = 0 := by omega
    subst hv
    rfl
  | succ k ih =>
    have hv : v / 256 < 256 ^ k := by
      rw [Nat.div_lt_iff_lt_mul (by norm_num)]
      calc v < 256 ^ (k + 1) := h
        _ = 256 ^ k * 256 := by ring
    have hrec := ih (v / 256) hv
    simp only [leBytes, fromLE, List.foldr] at hrec ⊢
    rw [hrec]
    omega

/-- C6: for every HTTP audio request, a shutdown in progress yields 503 before
anything else; otherwise a service name beginning with cover. yields 404;
otherwise the handler sleeps half a second exactly once when the channel
cannot currently be accepted and not at all when it can; a failed subscription
yields 503 and a successful one starts streaming. -/
theorem get_audio_request_spec (env : AudioRequestEnv) (service : String) :
    (env.shutdown_in_progress = true → get_audio_prelude env service = (.serviceUnavailable, 0))
    ∧ (env.shutdown_in_progress = false → pyStartswith service "cover." = true →
        get_audio_prelude env service = (.notFound, 0))
    ∧ (env.shutdown_in_progress = false → pyStartswith service "cover." = false →
        (get_audio_prelude env service).2 = if env.can_subscribe then 0 else 1)
    ∧ (env.shutdown_in_progress = false → pyStartswith service "cover." = false →
        env.subscribe_succeeds = false →
        (get_audio_prelude env service).1 = .serviceUnavailable)
    ∧ (env.shutdown_in_progress = false → pyStartswith service "cover." = false →
        env.subscribe_succeeds = true →
        (get_audio_prelude env service).1 = .streaming) := by
  unfold get_audio_prelude
  refine ⟨?_, ?_, ?_, ?_, ?_⟩ <;> intros <;> (simp_all; try split) <;> simp_all

/-- Witness for C6 at a concrete request: busy channel and failing
subscription give one sleep and a 503. -/
theorem get_audio_request_spec_witness :
    (get_audio_prelude ⟨false, false, false⟩ "Radio 1").1 = .serviceUnavailable
    ∧ (get_audio_prelude ⟨false, false, false⟩ "Radio 1").2 = 1 := by
  have h := get_audio_request_spec ⟨false, false, false⟩ "Radio 1"
  refine ⟨h.2.2.2.1 rfl (by decide) rfl, ?_⟩
  rw [h.2.2.1 rfl (by decide)]
  rfl

/-- C7 (amended): whenever the byte rate fits four bytes, the generated header
is the 44-byte little-endian RIFF layout with zero chunk sizes, fmt size 16,
format code 1 (or 3 under the float flag), 2 channels, sample rate sr, byte
rate 4 times sr, block align 4 and 16 bits per sample. -/
theorem wav_header_spec (sr : Nat) (h : 4 * sr < 256 ^ 4) :
    wav_header false 2 16 sr
      = some (asciiBytes "RIFF" ++ leBytes 4 0 ++ asciiBytes "WAVE"
          ++ asciiBytes "fmt " ++ leBytes 4 16 ++ leBytes 2 1 ++ leBytes 2 2
          ++ leBytes 4 sr ++ leBytes 4 (sr * 2 * 2) ++ leBytes 2 4 ++ leBytes 2 16
          ++ asciiBytes "data" ++ leBytes 4 0)
    ∧ wav_header true 2 16 sr
      = some (asciiBytes "RIFF" ++ leBytes 4 0 ++ asciiBytes "WAVE"
          ++ asciiBytes "fmt " ++ leBytes 4 16 ++ leBytes 2 3 ++ leBytes 2 2
          ++ leBytes 4 sr ++ leBytes 4 (sr * 2 * 2) ++ leBytes 2 4 ++ leBytes 2 16
          ++ asciiBytes "data" ++ leBytes 4 0)
    ∧ (∀ l, wav_header false 2 16 sr = some l → l.length = 44)
    ∧ fromLE (leBytes 4 sr) = sr
    ∧ fromLE (leBytes 4 (sr * 2 * 2)) = 4 * sr
    ∧ fromLE (leBytes 2 1) = 1 ∧ fromLE (leBytes 2 3) = 3
    ∧ fromLE (leBytes 2 2) = 2 ∧ fromLE (leBytes 2 4) = 4
    ∧ fromLE (leBytes 2 16) = 16 ∧ fromLE (leBytes 4 0) = 0 := by
  have e4 : (256 : Nat) ^ 4 = 4294967296 := by norm_num
  rw [e4] at h
  have hsr : sr < 256 ^ 4 := by rw [e4]; omega
  have hbr : sr * 2 * (16 / 8) < 256 ^ 4 := by rw [e4]; omega
  have hsrN : sr < 4294967296 := by omega
  have hbrN : sr * 2 * 2 < 4294967296 := by omega
  have hdr : wav_header false 2 16 sr
      = some (asciiBytes "RIFF" ++ leBytes 4 0 ++ asciiBytes "WAVE"
          ++ asciiBytes "fmt " ++ leBytes 4 16 ++ leBytes 2 1 ++ leBytes 2 2
          ++ leBytes 4 sr ++ leBytes 4 (sr * 2 * 2) ++ leBytes 2 4 ++ leBytes 2 16
          ++ asciiBytes "data" ++ leBytes 4 0) := by
    simp [wav_header, toBytesLE, hsrN, hbrN]
  have hdrF : wav_header true 2 16 sr
      = some (asciiBytes "RIFF" ++ leBytes 4 0 ++ asciiBytes "WAVE"
          ++ asciiBytes "fmt " ++ leBytes 4 16 ++ leBytes 2 3 ++ leBytes 2 2
          ++ leBytes 4 sr ++ leBytes 4 (sr * 2 * 2) ++ leBytes 2 4 ++ leBytes 2 16
          ++ asciiBytes "data" ++ leBytes 4 0) := by
    simp [wav_header, toBytesLE, hsrN, hbrN]
  refine ⟨hdr, hdrF, ?_, fromLE_leBytes 4 sr hsr, ?_, by decide, by decide, by decide,
    by decide, by decide, by decide⟩
  · intro l hl
    rw [hdr] at hl
    cases hl
    have r4 : ("RIFF" : String).length = 4 := rfl
    have w4 : ("WAVE" : String).length = 4 := rfl
    have f4 : ("fmt " : String).length = 4 := rfl
    have d4 : ("data" : String).length = 4 := rfl
    simp [List.length_append, leBytes_length, asciiBytes_length, r4, w4, f4, d4]
  · have := fromLE_leBytes 4 (sr * 2 * 2) hbr
    rw [show sr * 2 * (16 / 8) = sr * 2 * 2 by norm_num] at this
    rw [this]
    ring

/-- Witness for C7 at the realistic DAB rate 48000: the header exists and has
exactly 44 bytes. -/
theorem wav_header_spec_witness : (wav_header false 2 16 48000).map List.length = some 44 := by
  have h := wav_header_spec 48000 (by norm_num)
  rw [h.1]
  rfl

/-- Counterexample for C7 as stated: at sample rate 2 to the 30th the byte
rate no longer fits four bytes, int.to_bytes raises OverflowError and no
44-byte header is generated at all. -/
theorem wav_header_overflow_counterexample :
    wav_header false 2 16 (2 ^ 30) = none ∧ 4 * 2 ^ 30 = 256 ^ 4 := by
  exact ⟨by rfl, by norm_num⟩

/-- C8: the current-image endpoint answers 404 for an unsubscribed service and
serves a present non-empty picture, but on a subscribed service that has not
received any MOT object yet the picture attribute does not exist and the
handler raises AttributeError (HTTP 500) instead of the specified 404. -/
theorem get_current_image_no_mot_crashes :
    get_current_image (some ServiceData.init) = .attributeError
    ∧ get_current_image none = .notFound
    ∧ get_current_image (some { ServiceData.init with picture := some ⟨"image/jpeg", [7, 7], "cover"⟩ })
        = .ok [7, 7] "image/jpeg"
    ∧ ImageResponse.attributeError ≠ ImageResponse.notFound := by
  exact ⟨rfl, rfl, rfl, by decide⟩

theorem step_preserves_released (s : SCState) (st : SCStep)
    (hd : s.delete_in_progress = true) (ha : s.audioEvent = true)
    (hp : s.pictureEvent = true) (hl : s.labelEvent = true) :
    (s.step st).delete_in_progress = true ∧ (s.step st).audioEvent = true
    ∧ (s.step st).pictureEvent = true ∧ (s.step st).labelEvent = true := by
  cases st <;>
    simp [SCState.step, on_new_audio, on_new_dynamic_label, on_mot, release_waiters,
      hd, ha, hp, hl]

theorem run_preserves_released (s : SCState) (ops : List SCStep)
    (hd : s.delete_in_progress = true) (ha : s.audioEvent = true)
    (hp : s.pictureEvent = true) (hl : s.labelEvent = true) :
    (SCState.run s ops).delete_in_progress = true ∧ (SCState.run s ops).audioEvent = true
    ∧ (SCState.run s ops).pictureEvent = true ∧ (SCState.run s ops).labelEvent = true := by
  induction ops generalizing s with
  | nil => exact ⟨hd, ha, hp, hl⟩
  | cons st rest ih =>
    have h := step_preserves_released s st hd ha hp hl
    simpa [SCState.run, List.foldl] using ih (s.step st) h.1 h.2.1 h.2.2.1 h.2.2.2

/-- C1 (amended): once release_waiters has run, and after any further driver
activity, every waiter pending at teardown resumes into UnsubscribedError,
every fresh new_picture or new_label call raises UnsubscribedError, and a
fresh new_audio call raises exactly when its start cursor equals the write
cursor.  A fresh new_audio call whose start cursor differs from the write
cursor does NOT fail and still returns buffered data, refuting the claim for
arbitrary start cursors (see the counterexample). -/
theorem release_waiters_teardown (s0 : SCState) (ops : List SCStep) (start : Nat) :
    new_audio_resume (SCState.run (release_waiters s0) ops) start = .unsubscribedError
    ∧ new_picture_resume (SCState.run (release_waiters s0) ops) = .unsubscribedError
    ∧ new_label_resume (SCState.run (release_waiters s0) ops) = .unsubscribedError
    ∧ new_picture_call (SCState.run (release_waiters s0) ops) = .unsubscribedError
    ∧ new_label_call (SCState.run (release_waiters s0) ops) = .unsubscribedError
    ∧ (start = (SCState.run (release_waiters s0) ops).buffer.next_frame →
        new_audio_call (SCState.run (release_waiters s0) ops) start = .unsubscribedError) := by
  obtain ⟨hd, ha, hp, hl⟩ := run_preserves_released (release_waiters s0) ops rfl rfl rfl rfl
  refine ⟨?_, ?_, ?_, ?_, ?_, ?_⟩ <;>
    simp [new_audio_resume, new_picture_resume, new_label_resume, new_picture_call,
      new_label_call, new_audio_call, hd, ha, hp, hl]

/-- Witness for C1 at the fresh controller: a new_audio call at the write
cursor after teardown raises UnsubscribedError. -/
theorem release_waiters_teardown_witness :
    new_audio_call (SCState.run (release_waiters SCState.init) []) 0 = .unsubscribedError :=
  (release_waiters_teardown SCState.init [] 0).2.2.2.2.2 rfl

/-- Counterexample for C1 as stated: after one frame arrived and the
controller was torn down, a new_audio call with start cursor 0 (which differs
from the write cursor 1) does not raise UnsubscribedError but returns the
buffered frame. -/
theorem release_waiters_stale_audio_counterexample :
    (release_waiters (on_new_audio SCState.init [1, 2, 3] 48000 "dab")).delete_in_progress = true
    ∧ new_audio_call (release_waiters (on_new_audio SCState.init [1, 2, 3] 48000 "dab")) 0
        = .ret (1, [1, 2, 3]) := by
  exact ⟨rfl, by decide⟩

theorem python_slice_audio_spec (buf : AudioBuffer) (start : Nat)
    (hlen : buf.slots.length = BUFFER_SIZE) (hs : start < BUFFER_SIZE)
    (hn : buf.next_frame < BUFFER_SIZE) (hne : start ≠ buf.next_frame) :
    python_slice_audio buf start
      = (modIndices start buf.next_frame BUFFER_SIZE).map (fun i => buf.slots.getD i []) := by
  obtain ⟨next, data⟩ := buf
  simp only [BUFFER_SIZE] at hlen hs hn
  simp only [python_slice_audio, modIndices, BUFFER_SIZE] at *
  by_cases hlt : start < next
  · rw [if_pos hlt]
    have hmod : (next + 10 - start) % 10 = next - start := by omega
    rw [hmod]
    apply List.ext_getElem
    · simp [List.length_drop, List.length_take, hlen]
      omega
    · intro n h1 h2
      have hn1 : n < next - start := by
        simp [List.length_drop, List.length_take, hlen] at h1
        omega
      have hix : start + n < data.length := by omega
      rw [List.getElem_drop, List.getElem_take]
      rw [List.getElem_map, List.getElem_map, List.getElem_range]
      have hmod2 : (start + n) % 10 = start + n := by omega
      rw [hmod2, List.getD_eq_getElem data [] hix]
  · rw [if_neg hlt]
    have hgt : next < start := by omega
    have hmod : (next + 10 - start) % 10 = 10 - start + next := by omega
    rw [hmod]
    apply List.ext_getElem
    · simp [List.length_append, List.length_drop, List.length_take, hlen]
      omega
    · intro n h1 h2
      have hlens : (data.drop start).length = 10 - start := by
        simp [List.length_drop, hlen]
      have hn1 : n < 10 - start + next := by
        simp [List.length_append, List.length_drop, List.length_take, hlen] at h1
        omega
      rw [List.getElem_map, List.getElem_map, List.getElem_range]
      by_cases hsplit : n < 10 - start
      · have hil : n < (data.drop start).length := by omega
        rw [List.getElem_append_left hil, List.getElem_drop]
        have hmod2 : (start + n) % 10 = start + n := by omega
        have hix : start + n < data.length := by omega
        rw [hmod2, List.getD_eq_getElem data [] hix]
      · have hge : (data.drop start).length ≤ n := by omega
        rw [List.getElem_append_right hge, List.getElem_take]
        simp only [hlens]
        have hmod2 : (start + n) % 10 = n - (10 - start) := by omega
        have hix : n - (10 - start) < data.length := by omega
        rw [hmod2, List.getD_eq_getElem data [] hix]

/-- C2 (amended): every immediate new_audio return, and every resumed return
whose start cursor differs from the write cursor at resumption time, yields
the new write cursor together with the concatenation, in slot order, of the
frames stored at the slot indices from start to the new cursor taken modulo
10, and then the new cursor differs from start; but a resumed return whose
start equals the write cursor (exactly a positive multiple of 10 frames
arrived during the wait) yields the whole ten-slot buffer and a cursor equal
to start, refuting the unrestricted claim (see the counterexample). -/
theorem new_audio_slice_spec (s : SCState) (start : Nat)
    (hwf : SCWF s) (hs : start < BUFFER_SIZE) :
    (start ≠ s.buffer.next_frame →
      new_audio_call s start = .ret (s.buffer.next_frame, modConcat s.buffer start)
      ∧ s.buffer.next_frame ≠ start)
    ∧ (s.delete_in_progress = false → start ≠ s.buffer.next_frame →
      new_audio_resume s start = .ret (s.buffer.next_frame, modConcat s.buffer start))
    ∧ (s.delete_in_progress = false → start = s.buffer.next_frame →
      new_audio_resume s start
        = .ret (s.buffer.next_frame,
            joinBytes (s.buffer.slots.drop start ++ s.buffer.slots.take start))) := by
  obtain ⟨hlen, hn⟩ := hwf
  have hbody : start ≠ s.buffer.next_frame →
      new_audio_body s start = (s.buffer.next_frame, modConcat s.buffer start) := by
    intro hne
    have := python_slice_audio_spec s.buffer start hlen hs hn hne
    simp [new_audio_body, modConcat, this]
  refine ⟨fun hne => ⟨?_, fun h => hne h.symm⟩, fun hdel hne => ?_, fun hdel heq => ?_⟩
  · rw [new_audio_call, if_neg (by omega), hbody hne]
  · rw [new_audio_resume, if_neg (by simp [hdel]), hbody hne]
  · rw [new_audio_resume, if_neg (by simp [hdel])]
    rw [new_audio_body, python_slice_audio, if_neg (by omega)]
    rw [heq]

/-- Witness for C2 after a single frame: an immediate call with start cursor 0
returns the new cursor 1 and the mod-interval concatenation. -/
theorem new_audio_slice_spec_witness :
    new_audio_call (on_new_audio SCState.init [5] 44100 "aac") 0
      = .ret (1, modConcat (on_new_audio SCState.init [5] 44100 "aac").buffer 0)
    ∧ modConcat (on_new_audio SCState.init [5] 44100 "aac").buffer 0 = [5] := by
  have h := ((new_audio_slice_spec (on_new_audio SCState.init [5] 44100 "aac") 0
    ⟨by decide, by decide⟩ (by decide)).1 (by decide)).1
  exact ⟨h, by decide⟩

/-- Counterexample for C2 as stated: a reader blocked at cursor 0 that resumes
only after a burst of ten frames (each write performing a wake) observes a
write cursor equal to its start cursor again; the returned pair has new equal
to start and carries all ten slots, not the empty mod-interval. -/
theorem new_audio_wraparound_counterexample :
    new_audio_call SCState.init 0 = .blocked
    ∧ anyAudioWake SCState.init burstTen = true
    ∧ (SCState.run SCState.init burstTen).buffer.next_frame = 0
    ∧ (SCState.run SCState.init burstTen).delete_in_progress = false
    ∧ new_audio_resume (SCState.run SCState.init burstTen) 0
        = .ret (0, [0, 1, 2, 3, 4, 5, 6, 7, 8, 9]) := by
  refine ⟨rfl, by decide, by decide, by decide, by decide⟩

/-- C9 (amended): a non-dynamic new-song dispatch first cancels every present
handle of the update-task trio and clears the DAB-station reference, then runs
the common dispatch body; a dynamic re-dispatch cancels nothing, never clears
the station reference, and with an active station changes nothing at all; but
it may store fresh handles (the EPG branch replaces its own timer handle, see
the counterexample). -/
theorem update_task_discipline (s : CasterState) (env : SongEnv) :
    handle_mpd_new_song s env false = handle_new_song_body (stop_update_tasks s) env
    ∧ (stop_update_tasks s).updater.tvh_show = none
    ∧ (stop_update_tasks s).updater.dab_label = none
    ∧ (stop_update_tasks s).updater.dab_image = none
    ∧ (stop_update_tasks s).current_station = none
    ∧ (stop_update_tasks s).cancelled
        = s.cancelled ++ s.updater.tvh_show.toList ++ s.updater.dab_label.toList
          ++ s.updater.dab_image.toList
    ∧ (handle_mpd_new_song s env true).cancelled = s.cancelled
    ∧ (handle_mpd_new_song s env true).current_station.isSome ≥ s.current_station.isSome
    ∧ (s.current_station.isSome = true → handle_mpd_new_song s env true = s) := by
  refine ⟨rfl, rfl, rfl, rfl, rfl, rfl, ?_, ?_, ?_⟩
  · simp only [handle_mpd_new_song, if_pos, handle_new_song_body]
    split_ifs <;> rfl
  · simp only [handle_mpd_new_song, if_pos, handle_new_song_body]
    split_ifs <;> simp
  · intro h
    simp [handle_mpd_new_song, handle_new_song_body, h]

/-- Witness for C9 at a concrete state with an active DAB station: a dynamic
re-dispatch changes nothing. -/
theorem update_task_discipline_witness :
    handle_mpd_new_song ⟨⟨none, none, none⟩, some 5, 9, []⟩ ⟨true, true, some 3, true⟩ true
      = ⟨⟨none, none, none⟩, some 5, 9, []⟩ :=
  (update_task_discipline ⟨⟨none, none, none⟩, some 5, 9, []⟩ ⟨true, true, some 3, true⟩).2.2.2.2.2.2.2.2 rfl

/-- Counterexample for C9 as stated: a dynamic EPG re-dispatch (station not
set, EPG resolver succeeds, show has remaining time) stores a fresh delayed
task handle while cancelling nothing, so the previous trio handle is not left
unchanged. -/
theorem dynamic_redispatch_replaces_timer_counterexample :
    (handle_mpd_new_song ⟨⟨some 0, none, none⟩, none, 1, []⟩
        ⟨true, true, some 60, false⟩ true).updater.tvh_show = some 1
    ∧ (handle_mpd_new_song ⟨⟨some 0, none, none⟩, none, 1, []⟩
        ⟨true, true, some 60, false⟩ true).cancelled = []
    ∧ some (1 : Nat) ≠ some 0 := by
  exact ⟨rfl, rfl, by decide⟩

theorem fillName_idem (names : Nat → String) (sid : Nat) (pname : Option String) :
    fillName names sid (some (fillName names sid pname)) = fillName names sid pname := by
  cases pname with
  | none =>
    simp only [fillName]
    split_ifs <;> rfl
  | some s =>
    simp only [fillName]
    split_ifs <;> simp_all

theorem get_program_id_idem (names : Nat → String) (lookup : String)
    (progs : List (Nat × Option String)) :
    get_program_id names (get_program_id names progs lookup).1 lookup
      = get_program_id names progs lookup := by
  induction progs with
  | nil => rfl
  | cons e rest ih =>
    obtain ⟨sid, pname⟩ := e
    by_cases h : fillName names sid pname = lookup
    · have hfi : fillName names sid (some lookup) = lookup := by
        rw [← h]
        exact fillName_idem names sid pname
      simp [get_program_id, h, hfi]
    · have hfi := fillName_idem names sid pname
      simp [get_program_id, h, hfi, ih]

theorem poll_loop_stuck (names : Nat → String) (lookup : String)
    (progs : List (Nat × Option String)) (r : Option Nat) (k : Nat)
    (hfix : get_program_id names progs lookup = (progs, r))
    (hr : truthyNat r = false) :
    poll_loop names lookup progs k = (progs, none, k) := by
  induction k with
  | zero => rfl
  | succ n ih => simp [poll_loop, hfix, hr, ih]

theorem wait_for_channel_falsy (names : Nat → String)
    (progs : List (Nat × Option String)) (lookup : String)
    (h : truthyNat (get_program_id names progs lookup).2 = false) :
    wait_for_channel names progs lookup
      = ((get_program_id names progs lookup).1, none, 20) := by
  have hidem := get_program_id_idem names lookup progs
  have hfix : get_program_id names (get_program_id names progs lookup).1 lookup
      = ((get_program_id names progs lookup).1, (get_program_id names progs lookup).2) := by
    rw [hidem]
  rw [wait_for_channel, if_neg (by simp [h])]
  exact poll_loop_stuck names lookup (get_program_id names progs lookup).1
    (get_program_id names progs lookup).2 20 hfix h

/-- C10: a discovered service whose numeric id is 0 is treated as not found by
every name-driven path: the discovery wait performs its full twenty half
second polls and fails, subscription returns no handler, changes no handler
registration and no driver subscription but schedules the delayed reset,
is_playing answers false, and unsubscribe_program changes neither the handler
map nor the device. -/
theorem service_id_zero_spec (names : Nat → String) (subOk : Bool) (st : RCState)
    (dev : DabDevice) (program_name : String)
    (h : (get_program_id names st.programs program_name).2 = some 0) :
    wait_for_channel names st.programs program_name
      = ((get_program_id names st.programs program_name).1, none, 20)
    ∧ (subscribe_for_service_in_current_channel st dev program_name ⟨names, subOk⟩).1 = none
    ∧ (subscribe_for_service_in_current_channel st dev program_name
        ⟨names, subOk⟩).2.1.handlers = st.handlers
    ∧ (subscribe_for_service_in_current_channel st dev program_name
        ⟨names, subOk⟩).2.1.resetTaskCreated = true
    ∧ (subscribe_for_service_in_current_channel st dev program_name ⟨names, subOk⟩).2.2 = dev
    ∧ (is_playing st names program_name).1 = false
    ∧ (unsubscribe_program st dev names program_name).1.handlers = st.handlers
    ∧ (unsubscribe_program st dev names program_name).2 = dev := by
  have hfalsy : truthyNat (get_program_id names st.programs program_name).2 = false := by
    rw [h]
    rfl
  have hw := wait_for_channel_falsy names st.programs program_name hfalsy
  refine ⟨hw, ?_, ?_, ?_, ?_, ?_, ?_, ?_⟩ <;>
    simp [subscribe_for_service_in_current_channel, is_playing, unsubscribe_program,
      start_delayed_reset, truthyNat, hw, h, hfalsy]

/-- Witness for C10: service id 0 with matching name R is found by the lookup
yet subscription fails after twenty polls and is_playing answers false. -/
theorem service_id_zero_spec_witness :
    (get_program_id (fun _ => "R") [(0, some "R")] "R").2 = some 0
    ∧ (wait_for_channel (fun _ => "R") [(0, some "R")] "R").2.2 = 20
    ∧ (subscribe_for_service_in_current_channel
        { RCState.init with programs := [(0, some "R")] } DabDevice.init "R"
        ⟨fun _ => "R", true⟩).1 = none
    ∧ (is_playing { RCState.init with programs := [(0, some "R")] } (fun _ => "R") "R").1
        = false := by
  have h := service_id_zero_spec (fun _ => "R") true
    { RCState.init with programs := [(0, some "R")] } DabDevice.init "R" (by decide)
  refine ⟨by decide, ?_, h.2.1, h.2.2.2.2.2.1⟩
  rw [h.1]

theorem lookupHandler_eq_none_iff (l : List (Nat × Handler)) (pid : Nat) :
    lookupHandler l pid = none ↔ pid ∉ l.map Prod.fst := by
  induction l with
  | nil => simp [lookupHandler]
  | cons e rest ih =>
    obtain ⟨k, h⟩ := e
    by_cases he : k = pid
    · subst he
      simp [lookupHandler]
    · have he2 : ¬ pid = k := fun hh => he hh.symm
      simp [lookupHandler, he, he2, ih]

theorem lookupHandler_mem (l : List (Nat × Handler)) (pid : Nat) (h : Handler)
    (hl : lookupHandler l pid = some h) : (pid, h) ∈ l := by
  induction l with
  | nil => simp [lookupHandler] at hl
  | cons e rest ih =>
    obtain ⟨k, hv⟩ := e
    by_cases he : k = pid
    · subst he
      simp [lookupHandler] at hl
      subst hl
      exact List.mem_cons_self _ _
    · simp [lookupHandler, he] at hl
      exact List.mem_cons_of_mem _ (ih hl)

theorem map_fst_updateHandler (l : List (Nat × Handler)) (pid : Nat) (hh : Handler) :
    (updateHandler l pid hh).map Prod.fst = l.map Prod.fst := by
  rw [updateHandler, List.map_map]
  apply List.map_congr_left
  intro e he
  by_cases h : e.1 = pid
  · simp [h]
  · simp [h]

theorem mem_updateHandler (l : List (Nat × Handler)) (pid : Nat) (hh : Handler)
    (e : Nat × Handler) (he : e ∈ updateHandler l pid hh) :
    e = (pid, hh) ∨ (e ∈ l ∧ e.1 ≠ pid) := by
  induction l with
  | nil => simp [updateHandler] at he
  | cons a rest ih =>
    rw [updateHandler, List.map_cons] at he
    rcases List.mem_cons.mp he with he1 | he2
    · by_cases ha : a.1 = pid
      · rw [if_pos ha] at he1
        exact Or.inl he1
      · rw [if_neg ha] at he1
        subst he1
        exact Or.inr ⟨List.mem_cons_self _ _, ha⟩
    · rcases ih he2 with hx | hx
      · exact Or.inl hx
      · exact Or.inr ⟨List.mem_cons_of_mem _ hx.1, hx.2⟩

theorem map_fst_removeHandler (l : List (Nat × Handler)) (pid : Nat) :
    (removeHandler l pid).map Prod.fst = (l.map Prod.fst).filter (fun x => x != pid) := by
  induction l with
  | nil => rfl
  | cons e rest ih =>
    by_cases he : e.1 = pid
    · simp [removeHandler, List.filter, he] at ih ⊢
      exact ih
    · have hb : (e.1 != pid) = true := by simpa using he
      simp [removeHandler, List.filter, hb] at ih ⊢
      exact ih

theorem mem_removeHandler (l : List (Nat × Handler)) (pid : Nat) (e : Nat × Handler)
    (he : e ∈ removeHandler l pid) : e ∈ l :=
  List.mem_of_mem_filter he

theorem reset_channel_frame (st : RCState) (dev : DabDevice) :
    (reset_channel st dev).1.handlers = st.handlers
    ∧ (reset_channel st dev).2.1.subs = dev.subs := by
  simp only [reset_channel, dev_set_channel, dev_release]
  split_ifs <;> simp

theorem tune_channel_frame (st : RCState) (dev : DabDevice) (ch : String) (ok : Bool) :
    (tune_channel st dev ch ok).2.1.handlers = st.handlers
    ∧ (tune_channel st dev ch ok).2.2.1.subs = dev.subs := by
  unfold tune_channel reset_channel dev_set_channel dev_release aquire_now
  by_cases hrp : st.resetPending
  · by_cases hne : st.channelName = some ch
    · simp only [hrp, hne, if_true, if_false]
      simp
    · simp only [hrp, hne, if_true, if_false]
      simp [hne]
      repeat' split
      all_goals simp_all
  · cases hc : st.channelName with
    | some ch0 =>
      simp only [hrp]
      simp [hc]
      repeat' split
      all_goals simp_all
    | none =>
      simp only [hrp]
      simp [hc]
      repeat' split
      all_goals simp_all

theorem subscribe_for_service_inv (st : RCState) (dev : DabDevice) (name : String)
    (env : SubscribeEnv) (hok : env.subscribeOk = true)
    (h1 : dev.subs = st.handlers.map Prod.fst)
    (h2 : (st.handlers.map Prod.fst).Nodup)
    (h3 : ∀ e ∈ st.handlers, 1 ≤ e.2.subscribers) :
    (subscribe_for_service_in_current_channel st dev name env).2.2.subs
      = (subscribe_for_service_in_current_channel st dev name env).2.1.handlers.map Prod.fst
    ∧ ((subscribe_for_service_in_current_channel st dev name env).2.1.handlers.map
        Prod.fst).Nodup
    ∧ ∀ e ∈ (subscribe_for_service_in_current_channel st dev name env).2.1.handlers,
        1 ≤ e.2.subscribers := by
  rw [subscribe_for_service_in_current_channel]
  split
  case h_2 => exact ⟨h1, h2, h3⟩
  case h_1 pid heqpid heqtr =>
    cases hl : lookupHandler st.handlers pid with
    | some h =>
      have hmem := lookupHandler_mem st.handlers pid h hl
      simp only [hl]
      refine ⟨by simp [map_fst_updateHandler, h1], by simp [map_fst_updateHandler, h2], ?_⟩
      intro e he
      rcases mem_updateHandler _ _ _ _ he with hx | hx
      · subst hx
        have := h3 _ hmem
        simp only at this ⊢
        omega
      · exact h3 _ hx.1
    | none =>
      have hnotin : pid ∉ st.handlers.map Prod.fst := (lookupHandler_eq_none_iff _ _).mp hl
      simp only [hl, hok, if_true]
      refine ⟨?_, ?_, ?_⟩
      · simp [map_fst_updateHandler, List.map_append, h1]
      · simp [map_fst_updateHandler, List.map_append]
        rw [List.nodup_append]
        exact ⟨h2, List.nodup_singleton _, by simpa using hnotin⟩
      · intro e he
        rcases mem_updateHandler _ _ _ _ he with hx | hx
        · subst hx
          simp
        · rcases List.mem_append.mp hx.1 with hy | hy
          · exact h3 _ hy
          · exfalso
            apply hx.2
            simp at hy
            rw [hy]

theorem unsubscribe_pid_inv (st : RCState) (dev : DabDevice) (pid : Nat)
    (h1 : dev.subs = st.handlers.map Prod.fst)
    (h2 : (st.handlers.map Prod.fst).Nodup)
    (h3 : ∀ e ∈ st.handlers, 1 ≤ e.2.subscribers) :
    (unsubscribe_pid st dev pid).2.subs
      = (unsubscribe_pid st dev pid).1.handlers.map Prod.fst
    ∧ ((unsubscribe_pid st dev pid).1.handlers.map Prod.fst).Nodup
    ∧ ∀ e ∈ (unsubscribe_pid st dev pid).1.handlers, 1 ≤ e.2.subscribers := by
  rw [unsubscribe_pid]
  cases hl : lookupHandler st.handlers pid with
  | none => exact ⟨h1, h2, h3⟩
  | some h =>
    have hmem := lookupHandler_mem st.handlers pid h hl
    by_cases hz : h.subscribers - 1 = 0
    · simp only [hz, if_true, start_delayed_reset]
      refine ⟨?_, ?_, ?_⟩
      · rw [map_fst_removeHandler, h1]
      · rw [map_fst_removeHandler]
        exact h2.filter _
      · intro e he
        exact h3 _ (mem_removeHandler _ _ _ he)
    · simp only [hz, if_false]
      refine ⟨by simp [map_fst_updateHandler, h1], by simp [map_fst_updateHandler, h2], ?_⟩
      intro e he
      rcases mem_updateHandler _ _ _ _ he with hx | hx
      · subst hx
        have := h3 _ hmem
        simp only at this ⊢
        omega
      · exact h3 _ hx.1

theorem unsubscribe_program_inv (st : RCState) (dev : DabDevice) (names : Nat → String)
    (name : String)
    (h1 : dev.subs = st.handlers.map Prod.fst)
    (h2 : (st.handlers.map Prod.fst).Nodup)
    (h3 : ∀ e ∈ st.handlers, 1 ≤ e.2.subscribers) :
    (unsubscribe_program st dev names name).2.subs
      = (unsubscribe_program st dev names name).1.handlers.map Prod.fst
    ∧ ((unsubscribe_program st dev names name).1.handlers.map Prod.fst).Nodup
    ∧ ∀ e ∈ (unsubscribe_program st dev names name).1.handlers, 1 ≤ e.2.subscribers := by
  rw [unsubscribe_program]
  split
  case h_1 pid heqpid heqtr =>
    exact unsubscribe_pid_inv _ dev pid h1 h2 h3
  case h_2 => exact ⟨h1, h2, h3⟩

theorem subscribe_program_inv (st : RCState) (dev : DabDevice) (ch name : String)
    (env : CallEnv) (hok : env.subscribeOk = true)
    (h1 : dev.subs = st.handlers.map Prod.fst)
    (h2 : (st.handlers.map Prod.fst).Nodup)
    (h3 : ∀ e ∈ st.handlers, 1 ≤ e.2.subscribers) :
    (subscribe_program st dev ch name env).2.2.1.subs
      = (subscribe_program st dev ch name env).2.1.handlers.map Prod.fst
    ∧ ((subscribe_program st dev ch name env).2.1.handlers.map Prod.fst).Nodup
    ∧ ∀ e ∈ (subscribe_program st dev ch name env).2.1.handlers, 1 ≤ e.2.subscribers := by
  rw [subscribe_program]
  obtain ⟨hth, htd⟩ := tune_channel_frame st dev ch env.setChannelOk
  by_cases ht : (tune_channel st dev ch env.setChannelOk).1 = true
  · rw [if_pos ht]
    exact subscribe_for_service_inv _ _ name _ hok (by rw [htd, hth]; exact h1)
      (by rw [hth]; exact h2) (by rw [hth]; exact h3)
  · rw [if_neg ht]
    exact ⟨by rw [htd, hth]; exact h1, by rw [hth]; exact h2, by rw [hth]; exact h3⟩

theorem reset_timer_fire_frame (st : RCState) (dev : DabDevice) :
    (reset_timer_fire st dev).1.handlers = st.handlers
    ∧ (reset_timer_fire st dev).2.1.subs = dev.subs := by
  rw [reset_timer_fire]
  repeat' split
  all_goals simp_all [reset_channel_frame]

theorem reset_task_run_frame (st : RCState) : (reset_task_run st).handlers = st.handlers := by
  rw [reset_task_run]
  split_ifs <;> rfl

theorem start_scan_frame (sc : ScannerState) (dev : DabDevice) :
    (start_scan sc dev).2.1.subs = dev.subs := by
  by_cases h : sc.scan_task <;> simp only [start_scan, aquire_now, h] <;> split_ifs <;> rfl

theorem scan_tune_frame (sc : ScannerState) (dev : DabDevice) (ch : String) :
    (scan_tune sc dev ch).1.subs = dev.subs := by
  by_cases h : sc.scan_task <;> simp only [scan_tune, dev_set_channel, h] <;>
    split_ifs <;> rfl

theorem scan_finish_frame (sc : ScannerState) (dev : DabDevice) :
    (scan_finish sc dev).2.1.subs = dev.subs := by
  by_cases h : sc.scan_task <;> simp only [scan_finish, dev_release, h] <;>
    split_ifs <;> rfl

theorem step_preserves_RCInv (s : Sys) (st : SysStep) (hgood : driverSubsOk st)
    (hinv : RCInv s) : RCInv (s.step st).1 := by
  obtain ⟨h1, h2, h3⟩ := hinv
  cases st with
  | subscribe ch name env =>
    exact subscribe_program_inv s.rc s.dev ch name env hgood h1 h2 h3
  | unsubscribe names name =>
    exact unsubscribe_program_inv s.rc s.dev names name h1 h2 h3
  | serviceDetected sid => exact ⟨h1, h2, h3⟩
  | resetTaskRun =>
    have hf := reset_task_run_frame s.rc
    refine ⟨?_, ?_, ?_⟩
    · show s.dev.subs = ((reset_task_run s.rc).handlers).map Prod.fst
      rw [hf]
      exact h1
    · show (((reset_task_run s.rc).handlers).map Prod.fst).Nodup
      rw [hf]
      exact h2
    · show ∀ e ∈ (reset_task_run s.rc).handlers, 1 ≤ e.2.subscribers
      rw [hf]
      exact h3
  | resetTimerFire =>
    obtain ⟨hh, hd⟩ := reset_timer_fire_frame s.rc s.dev
    refine ⟨?_, ?_, ?_⟩
    · show (reset_timer_fire s.rc s.dev).2.1.subs
        = ((reset_timer_fire s.rc s.dev).1.handlers).map Prod.fst
      rw [hh, hd]
      exact h1
    · show (((reset_timer_fire s.rc s.dev).1.handlers).map Prod.fst).Nodup
      rw [hh]
      exact h2
    · show ∀ e ∈ (reset_timer_fire s.rc s.dev).1.handlers, 1 ≤ e.2.subscribers
      rw [hh]
      exact h3
  | startScan =>
    have hf := start_scan_frame s.scanner s.dev
    refine ⟨?_, ?_, ?_⟩
    · show (start_scan s.scanner s.dev).2.1.subs = (s.rc.handlers).map Prod.fst
      rw [hf]
      exact h1
    · exact h2
    · exact h3
  | scanTune ch =>
    have hf := scan_tune_frame s.scanner s.dev ch
    refine ⟨?_, ?_, ?_⟩
    · show (scan_tune s.scanner s.dev ch).1.subs = (s.rc.handlers).map Prod.fst
      rw [hf]
      exact h1
    · exact h2
    · exact h3
  | scanFinish =>
    have hf := scan_finish_frame s.scanner s.dev
    refine ⟨?_, ?_, ?_⟩
    · show (scan_finish s.scanner s.dev).2.1.subs = (s.rc.handlers).map Prod.fst
      rw [hf]
      exact h1
    · exact h2
    · exact h3

/-- C3 (amended): for every finite sequence of operations in which each driver
subscription call succeeds, the open driver subscriptions are exactly the keys
of the registered handler map (so their numbers are equal) and every
registered handler has subscriber count at least one; a failed driver
subscription call breaks the invariant (see the counterexample). -/
theorem radio_controller_invariant (steps : List SysStep)
    (hgood : ∀ st ∈ steps, driverSubsOk st) : RCInv (Sys.run Sys.init steps) := by
  have hbase : RCInv Sys.init :=
    ⟨rfl, List.nodup_nil, by intro e he; simp [Sys.init, RCState.init] at he⟩
  suffices hgen : ∀ (s : Sys), RCInv s → (∀ st ∈ steps, driverSubsOk st) →
      RCInv (Sys.run s steps) by
    exact hgen Sys.init hbase hgood
  clear hgood hbase
  induction steps with
  | nil => exact fun s hs _ => hs
  | cons st rest ih =>
    intro s hs hg
    have h1 := step_preserves_RCInv s st (hg st (List.mem_cons_self _ _)) hs
    have h2 : ∀ x ∈ rest, driverSubsOk x := fun x hx => hg x (List.mem_cons_of_mem _ hx)
    simpa [Sys.run, List.foldl] using ih (s.step st).1 h1 h2

/-- Witness for C3 on a concrete well-behaved sequence: discovery, two
subscribers of the same service, one unsubscribe. -/
theorem radio_controller_invariant_witness : RCInv (Sys.run Sys.init c3GoodTrace) :=
  radio_controller_invariant c3GoodTrace (by simp [c3GoodTrace, driverSubsOk])

/-- Counterexample for C3 as stated: when the driver subscription call fails,
the fresh handler stays registered with subscriber count zero while no driver
subscription is open, so the two counts differ and a registered handler has
count below one. -/
theorem failed_driver_subscribe_counterexample :
    (Sys.run Sys.init c3BadTrace).rc.handlers = [(1, { hid := 0, subscribers := 0 })]
    ∧ (Sys.run Sys.init c3BadTrace).dev.subs = []
    ∧ ¬ RCInv (Sys.run Sys.init c3BadTrace) := by
  refine ⟨by decide, by decide, ?_⟩
  intro hinv
  have h1 := hinv.1
  rw [(by decide : (Sys.run Sys.init c3BadTrace).dev.subs = []),
    (by decide : (Sys.run Sys.init c3BadTrace).rc.handlers
      = [(1, { hid := 0, subscribers := 0 })])] at h1
  simp at h1

set_option maxHeartbeats 2000000 in
/-- C4 (amended): a second subscribe for the same channel and service issued
while the deferred reset is waiting cancels the pending reset and reuses the
tuned channel: during the unsubscribe, the reset-task start and the second
subscribe no set_channel call and no lease call happens, the device stays
tuned and the radio controller keeps the lease; but the second subscribe
returns a NEW ServiceController instance (handler id 1 instead of 0), because
the first handler was torn down and deregistered when the subscriber count
reached zero, and the driver subscription is opened again. -/
theorem grace_window_resubscribe (ch sv : String) (sid : Nat) (names : Nat → String)
    (hsid : sid ≠ 0) (hname : pyRstrip (names sid) = sv) (hsv : sv ≠ "") :
    ((Sys.runOut Sys.init (c4Trace ch sv sid names)).2.map StepOut.result)
      = [none, some ⟨0, 1⟩, none, none, some ⟨1, 1⟩]
    ∧ ((Sys.runOut Sys.init (c4Trace ch sv sid names)).2.map StepOut.events)
      = [[], [.acquireCall .radio true, .setChannelCall .radioC .radio (some ch)], [], [], []]
    ∧ (Sys.runOut Sys.init (c4Trace ch sv sid names)).1.rc.resetWaiting = none
    ∧ (Sys.runOut Sys.init (c4Trace ch sv sid names)).1.rc.resetPending = false
    ∧ (Sys.runOut Sys.init (c4Trace ch sv sid names)).1.rc.channelName = some ch
    ∧ (Sys.runOut Sys.init (c4Trace ch sv sid names)).1.dev.forward_object = .radio
    ∧ (Sys.runOut Sys.init (c4Trace ch sv sid names)).1.dev.subs = [sid] := by
  have hb : (sid != 0) = true := bne_iff_ne.mpr hsid
  simp [c4Trace, Sys.runOut, Sys.step, subscribe_program, tune_channel,
    subscribe_for_service_in_current_channel, wait_for_channel, get_program_id, fillName,
    unsubscribe_program, unsubscribe_pid, lookupHandler, updateHandler, removeHandler,
    start_delayed_reset, reset_task_run, on_service_detected, aquire_now, dev_set_channel,
    dev_release, Sys.init, RCState.init, DabDevice.init, ScannerState.init, truthyNat,
    StepOut.none_, hname, hsv, hb]

/-- Witness for C4 at a concrete channel, service and id. -/
theorem grace_window_resubscribe_witness :
    ((Sys.runOut Sys.init (c4Trace "5C" "Rock" 1 (fun _ => "Rock"))).2.map StepOut.result)
      = [none, some ⟨0, 1⟩, none, none, some ⟨1, 1⟩] :=
  (grace_window_resubscribe "5C" "Rock" 1 (fun _ => "Rock")
    (by decide) (by decide) (by decide)).1

/-- Counterexample for C4 as stated: the second subscribe of the grace-window
round trip returns the handler with id 1 while the first subscribe returned
the handler with id 0; the instances are distinct, not the same. -/
theorem grace_window_new_instance_counterexample :
    ((Sys.runOut Sys.init (c4Trace "5C" "Rock" 1 (fun _ => "Rock"))).2.map StepOut.result)
      = [none, some ⟨0, 1⟩, none, none, some ⟨1, 1⟩]
    ∧ Handler.mk 1 1 ≠ Handler.mk 0 1 := by
  exact ⟨by decide, by decide⟩

/-- C5: the mutual-exclusion property fails on the code.  After a deferred
channel reset times out, the cancel event is left cleared; a scanner then
takes the lease and starts tuning; the next subscribe_program call sees the
cleared event, believes a delayed reset is pending, and calls set_channel
(untune) and release on the device while the scanner holds the lease, then
acquires the lease for the radio controller although the scan is still
active. -/
theorem scanner_lease_violation :
    anyViolation (Sys.runOut Sys.init c5Trace).2 = true
    ∧ DevEvent.setChannelCall .radioC .scanner none ∈ allEvents (Sys.runOut Sys.init c5Trace).2
    ∧ (Sys.runOut Sys.init c5Trace).1.scanner.scan_task = true
    ∧ (Sys.runOut Sys.init c5Trace).1.dev.forward_object = .radio := by
  refine ⟨by decide, by decide, by decide, by decide⟩

end MpdcastDab
